import Mathlib

/-!
Shallow embedding of the two Google Docs agent tools of this repository
(`agent/tools/google_docs_read.py` and `agent/tools/google_docs_write.py`).

Modelling conventions:
* Python values produced by `json.loads` are modelled by `PyVal`.
* External collaborators (the cancellation flag, the `json` library, the
  Google client library and the remote API) are oracle fields of `Env`:
  - `canceled i` is the value returned by the `i`-th call to
    `check_if_canceled` during one invocation (polls are numbered in
    call order);
  - `jsonLoads` / `jsonDumps` model `json.loads` and
    `json.dumps(..., indent=2)`;
  - `serviceFailure info scopes` is the exception message raised (if any)
    by `ServiceAccountCredentials.from_service_account_info` + `build`;
    on `none` the constructed service carries exactly the requested
    scopes and credential info;
  - `docsGet a svc docId` / `batchUpdate a svc docId ops` model
    `documents().get(...).execute()` and
    `documents().batchUpdate(...).execute()` on the `a`-th remote-call
    attempt (0-based), returning `.error msg` when the call raises an
    exception whose `str` is `msg`.
* `kwargs` is the string-valued input mapping; `kwargs.get(k, "")` is
  `strGet`, Python's `str.strip()` is `pyStrip`.
* A run is summarised by `InvokeOut`: the Python return value
  (`.retStr s` for `return s`, `.retNone` for a bare `return`,
  `.assertFail` for `assert False`), the ordered list of `set_output`
  writes, and the trace of observable events (each entry to the `try`
  block, which constructs a fresh client with the recorded scopes and
  performs one remote call, and each `time.sleep(delay_after_error)`).
-/

/-- Python values as produced by `json.loads`. -/
inductive PyVal where
  | pstr : String → PyVal
  | pint : Int → PyVal
  | pbool : Bool → PyVal
  | pnone : PyVal
  | plist : List PyVal → PyVal
  | pdict : List (String × PyVal) → PyVal

/-- `isinstance(v, list)`. -/
def PyVal.isList : PyVal → Bool
  | .plist _ => true
  | _ => false

/-- A Google API client handle, as built by `_get_docs_service`:
credential info together with the scopes requested for it. -/
structure Service where
  scopes : List String
  info : PyVal

/-- The retry-relevant fields of the tool parameter objects
(`GoogleDocsReadParam` / `GoogleDocsWriteParam` via `ToolParamBase`):
the credential blob and the shared retry policy. -/
structure ToolParam where
  service_account_json : String
  max_retries : Nat
  delay_after_error : Nat

/-- Observable events of one invocation. `.attempt scopes` is one entry
to the `try` block: a fresh client construction with the given scopes
followed by one remote call. `.sleep d` is `time.sleep(d)`. -/
inductive Event where
  | attempt : List String → Event
  | sleep : Nat → Event
deriving DecidableEq

def Event.isAttempt : Event → Bool
  | .attempt _ => true
  | .sleep _ => false

def Event.isSleep : Event → Bool
  | .attempt _ => false
  | .sleep _ => true

/-- Number of remote-call attempts in a trace. -/
def countAttempts (evs : List Event) : Nat :=
  (evs.filter Event.isAttempt).length

/-- Number of `time.sleep(delay_after_error)` delays in a trace. -/
def countSleeps (evs : List Event) : Nat :=
  (evs.filter Event.isSleep).length

/-- A value written by `set_output`. -/
inductive OutVal where
  | vstr : String → OutVal
  | vbool : Bool → OutVal
deriving DecidableEq

/-- The Python return of `_invoke`: a string, `None` (bare `return`), or
an `assert False` failure. -/
inductive InvokeResult where
  | retStr : String → InvokeResult
  | retNone : InvokeResult
  | assertFail : InvokeResult
deriving DecidableEq

/-- Summary of one `_invoke` run: return value, `set_output` writes in
order, event trace. -/
structure InvokeOut where
  result : InvokeResult
  outputs : List (String × OutVal)
  events : List Event
deriving DecidableEq

/-- The final value of an output field: the last `set_output` write wins. -/
def getOutput (o : InvokeOut) (key : String) : Option OutVal :=
  o.outputs.reverse.lookup key

/-- Oracles for the external collaborators of one invocation. -/
structure Env where
  canceled : Nat → Bool
  jsonLoads : String → Except String PyVal
  jsonDumps : PyVal → String
  serviceFailure : PyVal → List String → Option String
  docsGet : Nat → Service → String → Except String PyVal
  batchUpdate : Nat → Service → String → List PyVal → Except String PyVal

/-- `kwargs.get(key, "")` on a string-valued input mapping. -/
def strGet (kwargs : List (String × String)) (key : String) : String :=
  match kwargs.lookup key with
  | some v => v
  | none => ""

/-- Python's `str.strip()`: drop leading and trailing whitespace. -/
def pyStrip (s : String) : String :=
  String.mk (((s.data.dropWhile Char.isWhitespace).reverse.dropWhile Char.isWhitespace).reverse)

/-! ### GoogleDocsRead -/

/-- The `SCOPES` constant of `GoogleDocsRead._get_docs_service`. -/
def GoogleDocsRead.SCOPES : List String :=
  ["https://www.googleapis.com/auth/documents.readonly",
   "https://www.googleapis.com/auth/drive.readonly"]

/-- `GoogleDocsRead._get_docs_service`: `json.loads` the credential blob,
build scoped credentials and the service; any exception propagates as
`.error`. -/
def GoogleDocsRead.getDocsService (env : Env) (p : ToolParam) : Except String Service :=
  match env.jsonLoads p.service_account_json with
  | .error e => .error e
  | .ok info =>
    match env.serviceFailure info GoogleDocsRead.SCOPES with
    | some e => .error e
    | none => .ok ⟨GoogleDocsRead.SCOPES, info⟩

/-- The body of the `try` block of `GoogleDocsRead._invoke` on attempt
`a`: build the service, then `documents().get(documentId=...).execute()`. -/
def GoogleDocsRead.tryBody (env : Env) (p : ToolParam) (a : Nat) (document_id : String) :
    Except String PyVal :=
  match GoogleDocsRead.getDocsService env p with
  | .error e => .error e
  | .ok svc => env.docsGet a svc document_id

/-- The retry loop of `GoogleDocsRead._invoke`. `n` is the number of
remaining iterations of `for _ in range(max_retries + 1)`, `a` the
0-based index of the next attempt, `pi` the index of the next
`check_if_canceled` poll, `last_e` the current value of the Python
variable `last_e`, `events` the trace so far. The `n = 0` case is the
code after the loop: report `last_e` if non-empty, else `assert False`. -/
def GoogleDocsRead.loop (env : Env) (p : ToolParam) (document_id : String) :
    Nat → Nat → Nat → String → List Event → InvokeOut
  | 0, _, _, last_e, events =>
    if last_e ≠ "" then
      ⟨.retStr ("GoogleDocsRead error: " ++ last_e),
       [("_ERROR", .vstr last_e), ("success", .vbool false)], events⟩
    else
      ⟨.assertFail, [], events⟩
  | n + 1, a, pi, last_e, events =>
    if env.canceled pi then
      ⟨.retNone, [], events⟩
    else
      match GoogleDocsRead.tryBody env p a document_id with
      | .ok document =>
        ⟨.retStr (env.jsonDumps document), [],
         events ++ [.attempt GoogleDocsRead.SCOPES]⟩
      | .error e =>
        if env.canceled (pi + 1) then
          ⟨.retNone, [], events ++ [.attempt GoogleDocsRead.SCOPES]⟩
        else
          GoogleDocsRead.loop env p document_id n (a + 1) (pi + 2) e
            (events ++ [.attempt GoogleDocsRead.SCOPES, .sleep p.delay_after_error])

/-- `GoogleDocsRead._invoke`. -/
def GoogleDocsRead.invoke (env : Env) (p : ToolParam) (kwargs : List (String × String)) :
    InvokeOut :=
  if env.canceled 0 then
    ⟨.retNone, [], []⟩
  else
    let document_id := pyStrip (strGet kwargs "document_id")
    if document_id = "" then
      ⟨.retStr "Error: document_id is required",
       [("_ERROR", .vstr "document_id is required"), ("success", .vbool false)], []⟩
    else
      GoogleDocsRead.loop env p document_id (p.max_retries + 1) 0 1 "" []

/-! ### GoogleDocsWrite -/

/-- The `SCOPES` constant of `GoogleDocsWrite._get_docs_service`. -/
def GoogleDocsWrite.SCOPES : List String :=
  ["https://www.googleapis.com/auth/documents",
   "https://www.googleapis.com/auth/drive"]

/-- `GoogleDocsWrite._get_docs_service`. -/
def GoogleDocsWrite.getDocsService (env : Env) (p : ToolParam) : Except String Service :=
  match env.jsonLoads p.service_account_json with
  | .error e => .error e
  | .ok info =>
    match env.serviceFailure info GoogleDocsWrite.SCOPES with
    | some e => .error e
    | none => .ok ⟨GoogleDocsWrite.SCOPES, info⟩

/-- The body of the `try` block of `GoogleDocsWrite._invoke` on attempt
`a`: build the service, then
`documents().batchUpdate(documentId=..., body=...).execute()`. -/
def GoogleDocsWrite.tryBody (env : Env) (p : ToolParam) (a : Nat) (document_id : String)
    (operations : List PyVal) : Except String PyVal :=
  match GoogleDocsWrite.getDocsService env p with
  | .error e => .error e
  | .ok svc => env.batchUpdate a svc document_id operations

/-- The retry loop of `GoogleDocsWrite._invoke`; same shape as the read
loop, but on success it records `success=True` before returning. -/
def GoogleDocsWrite.loop (env : Env) (p : ToolParam) (document_id : String)
    (operations : List PyVal) :
    Nat → Nat → Nat → String → List Event → InvokeOut
  | 0, _, _, last_e, events =>
    if last_e ≠ "" then
      ⟨.retStr ("GoogleDocsWrite error: " ++ last_e),
       [("_ERROR", .vstr last_e), ("success", .vbool false)], events⟩
    else
      ⟨.assertFail, [], events⟩
  | n + 1, a, pi, last_e, events =>
    if env.canceled pi then
      ⟨.retNone, [], events⟩
    else
      match GoogleDocsWrite.tryBody env p a document_id operations with
      | .ok result =>
        ⟨.retStr (env.jsonDumps result), [("success", .vbool true)],
         events ++ [.attempt GoogleDocsWrite.SCOPES]⟩
      | .error e =>
        if env.canceled (pi + 1) then
          ⟨.retNone, [], events ++ [.attempt GoogleDocsWrite.SCOPES]⟩
        else
          GoogleDocsWrite.loop env p document_id operations n (a + 1) (pi + 2) e
            (events ++ [.attempt GoogleDocsWrite.SCOPES, .sleep p.delay_after_error])

/-- `GoogleDocsWrite._invoke`. -/
def GoogleDocsWrite.invoke (env : Env) (p : ToolParam) (kwargs : List (String × String)) :
    InvokeOut :=
  if env.canceled 0 then
    ⟨.retNone, [], []⟩
  else
    let document_id := pyStrip (strGet kwargs "document_id")
    let operations_str := pyStrip (strGet kwargs "operations")
    if document_id = "" then
      ⟨.retStr "Error: document_id is required",
       [("_ERROR", .vstr "document_id is required"), ("success", .vbool false)], []⟩
    else if operations_str = "" then
      ⟨.retStr "Error: operations is required",
       [("_ERROR", .vstr "operations is required"), ("success", .vbool false)], []⟩
    else
      match env.jsonLoads operations_str with
      | .error e =>
        ⟨.retStr ("Error: Invalid JSON in operations: " ++ e),
         [("_ERROR", .vstr ("Invalid JSON in operations: " ++ e)),
          ("success", .vbool false)], []⟩
      | .ok ops =>
        match ops with
        | .plist operations =>
          GoogleDocsWrite.loop env p document_id operations (p.max_retries + 1) 0 1 "" []
        | _ =>
          ⟨.retStr "Error: operations must be a JSON array",
           [("_ERROR", .vstr "operations must be a JSON array"),
            ("success", .vbool false)], []⟩

/-! ### Trace shapes -/

/-- The event trace of `j` consecutive failed attempts: each attempt is
followed by a `delay_after_error` sleep. -/
def failTrace (scopes : List String) (d : Nat) : Nat → List Event
  | 0 => []
  | j + 1 => .attempt scopes :: .sleep d :: failTrace scopes d j

/-- Does every `.attempt` event in the trace carry exactly these scopes? -/
def attemptsUse (scopes : List String) (evs : List Event) : Bool :=
  evs.all fun ev =>
    match ev with
    | .attempt s => s == scopes
    | .sleep _ => true

/-! ### Loop lemmas: read tool -/

theorem GoogleDocsRead.loop_success_read (env : Env) (p : ToolParam) (d : String)
    (hc : ∀ i, env.canceled i = false) (r : PyVal) :
    ∀ j n a pi last_e events,
      (∀ i, i < j → ∃ e, GoogleDocsRead.tryBody env p (a + i) d = .error e) →
      GoogleDocsRead.tryBody env p (a + j) d = .ok r →
      j < n →
      GoogleDocsRead.loop env p d n a pi last_e events =
        ⟨.retStr (env.jsonDumps r), [],
         events ++ failTrace GoogleDocsRead.SCOPES p.delay_after_error j
           ++ [.attempt GoogleDocsRead.SCOPES]⟩ := by
  intro j
  induction j with
  | zero =>
    intro n a pi last_e events _ hok hn
    obtain ⟨m, rfl⟩ : ∃ m, n = m + 1 := ⟨n - 1, by omega⟩
    rw [Nat.add_zero] at hok
    simp [GoogleDocsRead.loop, hc, hok, failTrace]
  | succ j ih =>
    intro n a pi last_e events hfail hok hn
    obtain ⟨m, rfl⟩ : ∃ m, n = m + 1 := ⟨n - 1, by omega⟩
    obtain ⟨e0, he0⟩ := hfail 0 (Nat.succ_pos j)
    rw [Nat.add_zero] at he0
    have step := ih m (a + 1) (pi + 2) e0
      (events ++ [.attempt GoogleDocsRead.SCOPES, .sleep p.delay_after_error])
      (fun i hi => by
        have := hfail (i + 1) (Nat.succ_lt_succ hi)
        rwa [show a + (i + 1) = a + 1 + i by omega] at this)
      (by rwa [show a + 1 + j = a + (j + 1) by omega])
      (by omega)
    simp only [GoogleDocsRead.loop, hc, Bool.false_eq_true, if_false, he0]
    rw [step]
    simp [failTrace]

theorem GoogleDocsRead.loop_exhaust_read (env : Env) (p : ToolParam) (d : String)
    (hc : ∀ i, env.canceled i = false) (e : Nat → String) :
    ∀ n a pi last_e events,
      (∀ i, i < n → GoogleDocsRead.tryBody env p (a + i) d = .error (e (a + i))) →
      GoogleDocsRead.loop env p d n a pi last_e events =
        GoogleDocsRead.loop env p d 0 0 0 (if n = 0 then last_e else e (a + n - 1))
          (events ++ failTrace GoogleDocsRead.SCOPES p.delay_after_error n) := by
  intro n
  induction n with
  | zero =>
    intro a pi last_e events _
    simp [GoogleDocsRead.loop, failTrace]
  | succ n ih =>
    intro a pi last_e events hfail
    have he0 := hfail 0 (Nat.succ_pos n)
    rw [Nat.add_zero] at he0
    have step := ih (a + 1) (pi + 2) (e a)
      (events ++ [.attempt GoogleDocsRead.SCOPES, .sleep p.delay_after_error])
      (fun i hi => by
        have := hfail (i + 1) (Nat.succ_lt_succ hi)
        rwa [show a + (i + 1) = a + 1 + i by omega] at this)
    have harg : (if n = 0 then e a else e (a + 1 + n - 1)) = e (a + n) := by
      rcases n with _ | k
      · simp
      · have hk : a + 1 + (k + 1) - 1 = a + (k + 1) := by omega
        simp [hk]
    rw [harg] at step
    have hidx : a + (n + 1) - 1 = a + n := by omega
    simp only [GoogleDocsRead.loop, hc, Bool.false_eq_true, if_false, he0, step, hidx]
    simp [GoogleDocsRead.loop, failTrace]

theorem GoogleDocsRead.loop_scopes_read (env : Env) (p : ToolParam) (d : String) :
    ∀ n a pi last_e events,
      attemptsUse GoogleDocsRead.SCOPES events = true →
      attemptsUse GoogleDocsRead.SCOPES
        (GoogleDocsRead.loop env p d n a pi last_e events).events = true := by
  intro n
  induction n with
  | zero =>
    intro a pi last_e events hev
    by_cases h : last_e = "" <;> simp [GoogleDocsRead.loop, h, hev]
  | succ n ih =>
    intro a pi last_e events hev
    by_cases hcp : env.canceled pi
    · simp [GoogleDocsRead.loop, hcp, hev]
    · cases htry : GoogleDocsRead.tryBody env p a d with
      | ok document =>
        simp [GoogleDocsRead.loop, hcp, htry, attemptsUse, List.all_append] at hev ⊢
        exact hev
      | error e =>
        by_cases hcp2 : env.canceled (pi + 1)
        · simp [GoogleDocsRead.loop, hcp, htry, hcp2, attemptsUse, List.all_append] at hev ⊢
          exact hev
        · simp only [GoogleDocsRead.loop, hcp, Bool.false_eq_true, if_false, htry, hcp2]
          apply ih
          simp [attemptsUse, List.all_append] at hev ⊢
          exact hev

/-! ### Loop lemmas: write tool -/

theorem GoogleDocsWrite.loop_success_write (env : Env) (p : ToolParam) (d : String)
    (ops : List PyVal) (hc : ∀ i, env.canceled i = false) (r : PyVal) :
    ∀ j n a pi last_e events,
      (∀ i, i < j → ∃ e, GoogleDocsWrite.tryBody env p (a + i) d ops = .error e) →
      GoogleDocsWrite.tryBody env p (a + j) d ops = .ok r →
      j < n →
      GoogleDocsWrite.loop env p d ops n a pi last_e events =
        ⟨.retStr (env.jsonDumps r), [("success", .vbool true)],
         events ++ failTrace GoogleDocsWrite.SCOPES p.delay_after_error j
           ++ [.attempt GoogleDocsWrite.SCOPES]⟩ := by
  intro j
  induction j with
  | zero =>
    intro n a pi last_e events _ hok hn
    obtain ⟨m, rfl⟩ : ∃ m, n = m + 1 := ⟨n - 1, by omega⟩
    rw [Nat.add_zero] at hok
    simp [GoogleDocsWrite.loop, hc, hok, failTrace]
  | succ j ih =>
    intro n a pi last_e events hfail hok hn
    obtain ⟨m, rfl⟩ : ∃ m, n = m + 1 := ⟨n - 1, by omega⟩
    obtain ⟨e0, he0⟩ := hfail 0 (Nat.succ_pos j)
    rw [Nat.add_zero] at he0
    have step := ih m (a + 1) (pi + 2) e0
      (events ++ [.attempt GoogleDocsWrite.SCOPES, .sleep p.delay_after_error])
      (fun i hi => by
        have := hfail (i + 1) (Nat.succ_lt_succ hi)
        rwa [show a + (i + 1) = a + 1 + i by omega] at this)
      (by rwa [show a + 1 + j = a + (j + 1) by omega])
      (by omega)
    simp only [GoogleDocsWrite.loop, hc, Bool.false_eq_true, if_false, he0]
    rw [step]
    simp [failTrace]

theorem GoogleDocsWrite.loop_exhaust_write (env : Env) (p : ToolParam) (d : String)
    (ops : List PyVal) (hc : ∀ i, env.canceled i = false) (e : Nat → String) :
    ∀ n a pi last_e events,
      (∀ i, i < n → GoogleDocsWrite.tryBody env p (a + i) d ops = .error (e (a + i))) →
      GoogleDocsWrite.loop env p d ops n a pi last_e events =
        GoogleDocsWrite.loop env p d ops 0 0 0 (if n = 0 then last_e else e (a + n - 1))
          (events ++ failTrace GoogleDocsWrite.SCOPES p.delay_after_error n) := by
  intro n
  induction n with
  | zero =>
    intro a pi last_e events _
    simp [GoogleDocsWrite.loop, failTrace]
  | succ n ih =>
    intro a pi last_e events hfail
    have he0 := hfail 0 (Nat.succ_pos n)
    rw [Nat.add_zero] at he0
    have step := ih (a + 1) (pi + 2) (e a)
      (events ++ [.attempt GoogleDocsWrite.SCOPES, .sleep p.delay_after_error])
      (fun i hi => by
        have := hfail (i + 1) (Nat.succ_lt_succ hi)
        rwa [show a + (i + 1) = a + 1 + i by omega] at this)
    have harg : (if n = 0 then e a else e (a + 1 + n - 1)) = e (a + n) := by
      rcases n with _ | k
      · simp
      · have hk : a + 1 + (k + 1) - 1 = a + (k + 1) := by omega
        simp [hk]
    rw [harg] at step
    have hidx : a + (n + 1) - 1 = a + n := by omega
    simp only [GoogleDocsWrite.loop, hc, Bool.false_eq_true, if_false, he0, step, hidx]
    simp [GoogleDocsWrite.loop, failTrace]

theorem GoogleDocsWrite.loop_scopes_write (env : Env) (p : ToolParam) (d : String)
    (ops : List PyVal) :
    ∀ n a pi last_e events,
      attemptsUse GoogleDocsWrite.SCOPES events = true →
      attemptsUse GoogleDocsWrite.SCOPES
        (GoogleDocsWrite.loop env p d ops n a pi last_e events).events = true := by
  intro n
  induction n with
  | zero =>
    intro a pi last_e events hev
    by_cases h : last_e = "" <;> simp [GoogleDocsWrite.loop, h, hev]
  | succ n ih =>
    intro a pi last_e events hev
    by_cases hcp : env.canceled pi
    · simp [GoogleDocsWrite.loop, hcp, hev]
    · cases htry : GoogleDocsWrite.tryBody env p a d ops with
      | ok result =>
        simp [GoogleDocsWrite.loop, hcp, htry, attemptsUse, List.all_append] at hev ⊢
        exact hev
      | error e =>
        by_cases hcp2 : env.canceled (pi + 1)
        · simp [GoogleDocsWrite.loop, hcp, htry, hcp2, attemptsUse, List.all_append] at hev ⊢
          exact hev
        · simp only [GoogleDocsWrite.loop, hcp, Bool.false_eq_true, if_false, htry, hcp2]
          apply ih
          simp [attemptsUse, List.all_append] at hev ⊢
          exact hev

/-! ### Trace counting -/

theorem countAttempts_append (xs ys : List Event) :
    countAttempts (xs ++ ys) = countAttempts xs + countAttempts ys := by
  simp [countAttempts]

theorem countSleeps_append (xs ys : List Event) :
    countSleeps (xs ++ ys) = countSleeps xs + countSleeps ys := by
  simp [countSleeps]

theorem countAttempts_failTrace (s : List String) (d : Nat) :
    ∀ j, countAttempts (failTrace s d j) = j := by
  intro j
  induction j with
  | zero => simp [failTrace, countAttempts]
  | succ j ih => simp [failTrace, countAttempts, Event.isAttempt, List.filter] at ih ⊢; omega

theorem countSleeps_failTrace (s : List String) (d : Nat) :
    ∀ j, countSleeps (failTrace s d j) = j := by
  intro j
  induction j with
  | zero => simp [failTrace, countSleeps]
  | succ j ih => simp [failTrace, countSleeps, Event.isSleep, List.filter] at ih ⊢; omega

/-! ### A concrete oracle environment for witnesses -/

/-- A concrete environment: `jsonLoads` parses only `"[]"` (an empty
array) and `"{}"` (an empty object), serialization is the constant
string `"SERIALIZED"`, client construction never fails, and the two
remote calls behave as the given attempt-indexed functions. -/
def testEnv (cancel : Nat → Bool) (get upd : Nat → Except String PyVal) : Env :=
  ⟨cancel,
   fun s =>
     if s = "[]" then .ok (.plist [])
     else if s = "{}" then .ok (.pdict [])
     else .error ("Expecting value: " ++ s),
   fun _ => "SERIALIZED",
   fun _ _ => none,
   fun a _ _ => get a,
   fun a _ _ _ => upd a⟩

/-! ### C1 -/

/-- C1 counterexample: a non-canceled, validation-passing read invocation
whose remote call succeeds on the first attempt returns the serialized
response body after exactly one attempt, but the `success` output flag is
never set (the read tool's success path records no outputs at all), so
the claim that `success` is recorded as `true` for either tool is false. -/
theorem C1_read_success_flag_missing :
    (GoogleDocsRead.invoke
        (testEnv (fun _ => false) (fun _ => .ok (.pstr "doc")) (fun _ => .ok (.pstr "res")))
        ⟨"{}", 2, 5⟩ [("document_id", "d1")]).result = .retStr "SERIALIZED" ∧
    countAttempts (GoogleDocsRead.invoke
        (testEnv (fun _ => false) (fun _ => .ok (.pstr "doc")) (fun _ => .ok (.pstr "res")))
        ⟨"{}", 2, 5⟩ [("document_id", "d1")]).events = 1 ∧
    getOutput (GoogleDocsRead.invoke
        (testEnv (fun _ => false) (fun _ => .ok (.pstr "doc")) (fun _ => .ok (.pstr "res")))
        ⟨"{}", 2, 5⟩ [("document_id", "d1")]) "success" = none := by
  exact ⟨rfl, rfl, rfl⟩

/-- C1 (amended): for every non-canceled invocation that passes input
validation and whose remote call first succeeds on attempt k with
k ≤ max_retries + 1, exactly k remote-call attempts occur and the value
returned is exactly the serialized (JSON-dumped) remote response body;
the write tool additionally records the output flag `success` as `true`,
while the read tool records no output fields on success. -/
theorem C1_success_serialized :
    (∀ (env : Env) (p : ToolParam) (kwargs : List (String × String)) (k : Nat) (r : PyVal),
      (∀ i, env.canceled i = false) →
      pyStrip (strGet kwargs "document_id") ≠ "" →
      1 ≤ k → k ≤ p.max_retries + 1 →
      (∀ i, i < k - 1 →
        ∃ e, GoogleDocsRead.tryBody env p i (pyStrip (strGet kwargs "document_id")) = .error e) →
      GoogleDocsRead.tryBody env p (k - 1) (pyStrip (strGet kwargs "document_id")) = .ok r →
      GoogleDocsRead.invoke env p kwargs =
        ⟨.retStr (env.jsonDumps r), [],
         failTrace GoogleDocsRead.SCOPES p.delay_after_error (k - 1)
           ++ [.attempt GoogleDocsRead.SCOPES]⟩ ∧
      countAttempts (GoogleDocsRead.invoke env p kwargs).events = k) ∧
    (∀ (env : Env) (p : ToolParam) (kwargs : List (String × String)) (k : Nat)
        (ops : List PyVal) (r : PyVal),
      (∀ i, env.canceled i = false) →
      pyStrip (strGet kwargs "document_id") ≠ "" →
      pyStrip (strGet kwargs "operations") ≠ "" →
      env.jsonLoads (pyStrip (strGet kwargs "operations")) = .ok (.plist ops) →
      1 ≤ k → k ≤ p.max_retries + 1 →
      (∀ i, i < k - 1 →
        ∃ e, GoogleDocsWrite.tryBody env p i (pyStrip (strGet kwargs "document_id")) ops = .error e) →
      GoogleDocsWrite.tryBody env p (k - 1) (pyStrip (strGet kwargs "document_id")) ops = .ok r →
      GoogleDocsWrite.invoke env p kwargs =
        ⟨.retStr (env.jsonDumps r), [("success", .vbool true)],
         failTrace GoogleDocsWrite.SCOPES p.delay_after_error (k - 1)
           ++ [.attempt GoogleDocsWrite.SCOPES]⟩ ∧
      countAttempts (GoogleDocsWrite.invoke env p kwargs).events = k) := by
  constructor
  · intro env p kwargs k r hc hd hk1 hk2 hfail hok
    have hmain : GoogleDocsRead.invoke env p kwargs =
        ⟨.retStr (env.jsonDumps r), [],
         failTrace GoogleDocsRead.SCOPES p.delay_after_error (k - 1)
           ++ [.attempt GoogleDocsRead.SCOPES]⟩ := by
      have hl := GoogleDocsRead.loop_success_read env p (pyStrip (strGet kwargs "document_id"))
        hc r (k - 1) (p.max_retries + 1) 0 1 "" []
        (fun i hi => by simpa using hfail i hi)
        (by simpa using hok) (by omega)
      simp only [GoogleDocsRead.invoke, hc 0, Bool.false_eq_true, if_false]
      rw [if_neg hd, hl]
      simp
    refine ⟨hmain, ?_⟩
    have hev : (GoogleDocsRead.invoke env p kwargs).events =
        failTrace GoogleDocsRead.SCOPES p.delay_after_error (k - 1)
          ++ [.attempt GoogleDocsRead.SCOPES] := by rw [hmain]
    rw [hev, countAttempts_append, countAttempts_failTrace]
    have h1 : countAttempts [Event.attempt GoogleDocsRead.SCOPES] = 1 := rfl
    rw [h1]
    omega
  · intro env p kwargs k ops r hc hd ho hjson hk1 hk2 hfail hok
    have hmain : GoogleDocsWrite.invoke env p kwargs =
        ⟨.retStr (env.jsonDumps r), [("success", .vbool true)],
         failTrace GoogleDocsWrite.SCOPES p.delay_after_error (k - 1)
           ++ [.attempt GoogleDocsWrite.SCOPES]⟩ := by
      have hl := GoogleDocsWrite.loop_success_write env p (pyStrip (strGet kwargs "document_id"))
        ops hc r (k - 1) (p.max_retries + 1) 0 1 "" []
        (fun i hi => by simpa using hfail i hi)
        (by simpa using hok) (by omega)
      simp only [GoogleDocsWrite.invoke, hc 0, Bool.false_eq_true, if_false]
      rw [if_neg hd, if_neg ho]
      simp only [hjson]
      rw [hl]
      simp
    refine ⟨hmain, ?_⟩
    have hev : (GoogleDocsWrite.invoke env p kwargs).events =
        failTrace GoogleDocsWrite.SCOPES p.delay_after_error (k - 1)
          ++ [.attempt GoogleDocsWrite.SCOPES] := by rw [hmain]
    rw [hev, countAttempts_append, countAttempts_failTrace]
    have h1 : countAttempts [Event.attempt GoogleDocsWrite.SCOPES] = 1 := rfl
    rw [h1]
    omega

/-- C1 witness: the amended statement applied to a concrete run of each
tool succeeding on the first attempt. -/
theorem C1_success_serialized_witness :
    (GoogleDocsRead.invoke
        (testEnv (fun _ => false) (fun _ => .ok (.pstr "doc")) (fun _ => .ok (.pstr "res")))
        ⟨"{}", 2, 5⟩ [("document_id", "d1")] =
      ⟨.retStr "SERIALIZED", [], [.attempt GoogleDocsRead.SCOPES]⟩) ∧
    (GoogleDocsWrite.invoke
        (testEnv (fun _ => false) (fun _ => .ok (.pstr "doc")) (fun _ => .ok (.pstr "res")))
        ⟨"{}", 2, 5⟩ [("document_id", "d1"), ("operations", "[]")] =
      ⟨.retStr "SERIALIZED", [("success", .vbool true)], [.attempt GoogleDocsWrite.SCOPES]⟩) := by
  constructor
  · have h := (C1_success_serialized.1
      (testEnv (fun _ => false) (fun _ => .ok (.pstr "doc")) (fun _ => .ok (.pstr "res")))
      ⟨"{}", 2, 5⟩ [("document_id", "d1")] 1 (.pstr "doc")
      (fun _ => rfl) (by decide) (by decide) (by decide)
      (fun i hi => absurd hi (by omega)) rfl).1
    simpa [failTrace] using h
  · have h := (C1_success_serialized.2
      (testEnv (fun _ => false) (fun _ => .ok (.pstr "doc")) (fun _ => .ok (.pstr "res")))
      ⟨"{}", 2, 5⟩ [("document_id", "d1"), ("operations", "[]")] 1 [] (.pstr "res")
      (fun _ => rfl) (by decide) (by decide) rfl (by decide) (by decide)
      (fun i hi => absurd hi (by omega)) rfl).1
    simpa [failTrace] using h

/-! ### C2 -/

/-- C2 counterexample: with `max_retries = 2` and every attempt failing
with message `"quota exceeded"`, the write tool makes exactly 3 attempts
and returns `"GoogleDocsWrite error: quota exceeded"` as claimed, but a
`delay_after_error` sleep occurs after every failed attempt including
the last, so 3 delays elapse, not the claimed 2 (`max_retries`). -/
theorem C2_delay_after_last_attempt :
    GoogleDocsWrite.invoke
        (testEnv (fun _ => false) (fun _ => .error "quota exceeded")
          (fun _ => .error "quota exceeded"))
        ⟨"{}", 2, 5⟩ [("document_id", "d1"), ("operations", "[]")] =
      ⟨.retStr "GoogleDocsWrite error: quota exceeded",
       [("_ERROR", .vstr "quota exceeded"), ("success", .vbool false)],
       failTrace GoogleDocsWrite.SCOPES 5 3⟩ ∧
    countAttempts (GoogleDocsWrite.invoke
        (testEnv (fun _ => false) (fun _ => .error "quota exceeded")
          (fun _ => .error "quota exceeded"))
        ⟨"{}", 2, 5⟩ [("document_id", "d1"), ("operations", "[]")]).events = 3 ∧
    countSleeps (GoogleDocsWrite.invoke
        (testEnv (fun _ => false) (fun _ => .error "quota exceeded")
          (fun _ => .error "quota exceeded"))
        ⟨"{}", 2, 5⟩ [("document_id", "d1"), ("operations", "[]")]).events = 3 ∧
    ¬ countSleeps (GoogleDocsWrite.invoke
        (testEnv (fun _ => false) (fun _ => .error "quota exceeded")
          (fun _ => .error "quota exceeded"))
        ⟨"{}", 2, 5⟩ [("document_id", "d1"), ("operations", "[]")]).events = 2 := by
  refine ⟨rfl, rfl, rfl, ?_⟩
  intro h
  simp only [show countSleeps (GoogleDocsWrite.invoke
      (testEnv (fun _ => false) (fun _ => .error "quota exceeded")
        (fun _ => .error "quota exceeded"))
      ⟨"{}", 2, 5⟩ [("document_id", "d1"), ("operations", "[]")]).events = 3 from rfl] at h
  exact absurd h (by omega)

/-- C2 (amended): for every non-canceled, validation-passing invocation
whose remote call fails on every attempt (with a non-empty final error
message), exactly `max_retries + 1` remote-call attempts occur, and a
delay of `delay_after_error` elapses after every failed attempt,
including the last — `max_retries + 1` delays in total; the final
`_ERROR` output carries the last captured error message verbatim with
`success = false`, and the returned string is the tool name followed by
`" error: "` and that message. -/
theorem C2_allfail_retries :
    (∀ (env : Env) (p : ToolParam) (kwargs : List (String × String)) (e : Nat → String),
      (∀ i, env.canceled i = false) →
      pyStrip (strGet kwargs "document_id") ≠ "" →
      (∀ i, i < p.max_retries + 1 →
        GoogleDocsRead.tryBody env p i (pyStrip (strGet kwargs "document_id")) = .error (e i)) →
      e p.max_retries ≠ "" →
      GoogleDocsRead.invoke env p kwargs =
        ⟨.retStr ("GoogleDocsRead error: " ++ e p.max_retries),
         [("_ERROR", .vstr (e p.max_retries)), ("success", .vbool false)],
         failTrace GoogleDocsRead.SCOPES p.delay_after_error (p.max_retries + 1)⟩ ∧
      countAttempts (GoogleDocsRead.invoke env p kwargs).events = p.max_retries + 1 ∧
      countSleeps (GoogleDocsRead.invoke env p kwargs).events = p.max_retries + 1) ∧
    (∀ (env : Env) (p : ToolParam) (kwargs : List (String × String))
        (ops : List PyVal) (e : Nat → String),
      (∀ i, env.canceled i = false) →
      pyStrip (strGet kwargs "document_id") ≠ "" →
      pyStrip (strGet kwargs "operations") ≠ "" →
      env.jsonLoads (pyStrip (strGet kwargs "operations")) = .ok (.plist ops) →
      (∀ i, i < p.max_retries + 1 →
        GoogleDocsWrite.tryBody env p i (pyStrip (strGet kwargs "document_id")) ops
          = .error (e i)) →
      e p.max_retries ≠ "" →
      GoogleDocsWrite.invoke env p kwargs =
        ⟨.retStr ("GoogleDocsWrite error: " ++ e p.max_retries),
         [("_ERROR", .vstr (e p.max_retries)), ("success", .vbool false)],
         failTrace GoogleDocsWrite.SCOPES p.delay_after_error (p.max_retries + 1)⟩ ∧
      countAttempts (GoogleDocsWrite.invoke env p kwargs).events = p.max_retries + 1 ∧
      countSleeps (GoogleDocsWrite.invoke env p kwargs).events = p.max_retries + 1) := by
  constructor
  · intro env p kwargs e hc hd hfail hne
    have hl := GoogleDocsRead.loop_exhaust_read env p (pyStrip (strGet kwargs "document_id"))
      hc e (p.max_retries + 1) 0 1 "" []
      (fun i hi => by simpa using hfail i hi)
    have hmain : GoogleDocsRead.invoke env p kwargs =
        ⟨.retStr ("GoogleDocsRead error: " ++ e p.max_retries),
         [("_ERROR", .vstr (e p.max_retries)), ("success", .vbool false)],
         failTrace GoogleDocsRead.SCOPES p.delay_after_error (p.max_retries + 1)⟩ := by
      simp only [GoogleDocsRead.invoke, hc 0, Bool.false_eq_true, if_false]
      rw [if_neg hd, hl]
      simp [GoogleDocsRead.loop, hne]
    refine ⟨hmain, ?_, ?_⟩
    · have hev : (GoogleDocsRead.invoke env p kwargs).events =
          failTrace GoogleDocsRead.SCOPES p.delay_after_error (p.max_retries + 1) := by
        rw [hmain]
      rw [hev, countAttempts_failTrace]
    · have hev : (GoogleDocsRead.invoke env p kwargs).events =
          failTrace GoogleDocsRead.SCOPES p.delay_after_error (p.max_retries + 1) := by
        rw [hmain]
      rw [hev, countSleeps_failTrace]
  · intro env p kwargs ops e hc hd ho hjson hfail hne
    have hl := GoogleDocsWrite.loop_exhaust_write env p (pyStrip (strGet kwargs "document_id"))
      ops hc e (p.max_retries + 1) 0 1 "" []
      (fun i hi => by simpa using hfail i hi)
    have hmain : GoogleDocsWrite.invoke env p kwargs =
        ⟨.retStr ("GoogleDocsWrite error: " ++ e p.max_retries),
         [("_ERROR", .vstr (e p.max_retries)), ("success", .vbool false)],
         failTrace GoogleDocsWrite.SCOPES p.delay_after_error (p.max_retries + 1)⟩ := by
      simp only [GoogleDocsWrite.invoke, hc 0, Bool.false_eq_true, if_false]
      rw [if_neg hd, if_neg ho]
      simp only [hjson]
      rw [hl]
      simp [GoogleDocsWrite.loop, hne]
    refine ⟨hmain, ?_, ?_⟩
    · have hev : (GoogleDocsWrite.invoke env p kwargs).events =
          failTrace GoogleDocsWrite.SCOPES p.delay_after_error (p.max_retries + 1) := by
        rw [hmain]
      rw [hev, countAttempts_failTrace]
    · have hev : (GoogleDocsWrite.invoke env p kwargs).events =
          failTrace GoogleDocsWrite.SCOPES p.delay_after_error (p.max_retries + 1) := by
        rw [hmain]
      rw [hev, countSleeps_failTrace]

/-- C2 witness: the amended statement applied to a concrete all-failing
run of each tool (`max_retries = 1`, every attempt failing with
`"boom"`). -/
theorem C2_allfail_retries_witness :
    (GoogleDocsRead.invoke
        (testEnv (fun _ => false) (fun _ => .error "boom") (fun _ => .error "boom"))
        ⟨"{}", 1, 4⟩ [("document_id", "d1")] =
      ⟨.retStr "GoogleDocsRead error: boom",
       [("_ERROR", .vstr "boom"), ("success", .vbool false)],
       failTrace GoogleDocsRead.SCOPES 4 2⟩) ∧
    (GoogleDocsWrite.invoke
        (testEnv (fun _ => false) (fun _ => .error "boom") (fun _ => .error "boom"))
        ⟨"{}", 1, 4⟩ [("document_id", "d1"), ("operations", "[]")] =
      ⟨.retStr "GoogleDocsWrite error: boom",
       [("_ERROR", .vstr "boom"), ("success", .vbool false)],
       failTrace GoogleDocsWrite.SCOPES 4 2⟩) := by
  constructor
  · exact (C2_allfail_retries.1
      (testEnv (fun _ => false) (fun _ => .error "boom") (fun _ => .error "boom"))
      ⟨"{}", 1, 4⟩ [("document_id", "d1")] (fun _ => "boom")
      (fun _ => rfl) (by decide) (fun i _ => rfl) (by decide)).1
  · exact (C2_allfail_retries.2
      (testEnv (fun _ => false) (fun _ => .error "boom") (fun _ => .error "boom"))
      ⟨"{}", 1, 4⟩ [("document_id", "d1"), ("operations", "[]")] [] (fun _ => "boom")
      (fun _ => rfl) (by decide) (by decide) rfl (fun i _ => rfl) (by decide)).1

/-! ### C3 -/

/-- C3: for every non-canceled invocation of either tool whose
`document_id` input is missing, empty, or whitespace-only (its stripped
value is empty), the return value is `"Error: document_id is required"`,
`_ERROR` is set to `"document_id is required"`, `success` is `false`, and
no remote call and no client construction is attempted (the event trace
is empty). -/
theorem C3_missing_document_id :
    ∀ (env : Env) (p : ToolParam) (kwargs : List (String × String)),
      env.canceled 0 = false →
      pyStrip (strGet kwargs "document_id") = "" →
      GoogleDocsRead.invoke env p kwargs =
        ⟨.retStr "Error: document_id is required",
         [("_ERROR", .vstr "document_id is required"), ("success", .vbool false)], []⟩ ∧
      GoogleDocsWrite.invoke env p kwargs =
        ⟨.retStr "Error: document_id is required",
         [("_ERROR", .vstr "document_id is required"), ("success", .vbool false)], []⟩ := by
  intro env p kwargs hc hd
  constructor
  · simp [GoogleDocsRead.invoke, hc, hd]
  · simp [GoogleDocsWrite.invoke, hc, hd]

/-- C3 witness: the theorem applied to a concrete invocation with a
whitespace-only `document_id`. -/
theorem C3_missing_document_id_witness :
    GoogleDocsRead.invoke
        (testEnv (fun _ => false) (fun _ => .ok .pnone) (fun _ => .ok .pnone))
        ⟨"{}", 2, 5⟩ [("document_id", "  ")] =
      ⟨.retStr "Error: document_id is required",
       [("_ERROR", .vstr "document_id is required"), ("success", .vbool false)], []⟩ ∧
    GoogleDocsWrite.invoke
        (testEnv (fun _ => false) (fun _ => .ok .pnone) (fun _ => .ok .pnone))
        ⟨"{}", 2, 5⟩ [("document_id", "  ")] =
      ⟨.retStr "Error: document_id is required",
       [("_ERROR", .vstr "document_id is required"), ("success", .vbool false)], []⟩ :=
  C3_missing_document_id
    (testEnv (fun _ => false) (fun _ => .ok .pnone) (fun _ => .ok .pnone))
    ⟨"{}", 2, 5⟩ [("document_id", "  ")] rfl (by decide)

/-! ### C4 -/

/-- C4: for the write tool, for every non-canceled invocation with a
valid `document_id` and a non-blank `operations` input, if `json.loads`
of the stripped operations string raises with message `msg`, the return
value is exactly `"Error: Invalid JSON in operations: " ++ msg` (so it
starts with the claimed text), `_ERROR` is set, `success` is `false`,
and no remote call is attempted; if it parses to a value that is not a
list, the return value is `"Error: operations must be a JSON array"`
with the analogous outputs, again with no remote call. -/
theorem C4_write_operations_validation :
    ∀ (env : Env) (p : ToolParam) (kwargs : List (String × String)),
      env.canceled 0 = false →
      pyStrip (strGet kwargs "document_id") ≠ "" →
      pyStrip (strGet kwargs "operations") ≠ "" →
      (∀ msg, env.jsonLoads (pyStrip (strGet kwargs "operations")) = .error msg →
        GoogleDocsWrite.invoke env p kwargs =
          ⟨.retStr ("Error: Invalid JSON in operations: " ++ msg),
           [("_ERROR", .vstr ("Invalid JSON in operations: " ++ msg)),
            ("success", .vbool false)], []⟩) ∧
      (∀ v, env.jsonLoads (pyStrip (strGet kwargs "operations")) = .ok v →
        v.isList = false →
        GoogleDocsWrite.invoke env p kwargs =
          ⟨.retStr "Error: operations must be a JSON array",
           [("_ERROR", .vstr "operations must be a JSON array"),
            ("success", .vbool false)], []⟩) := by
  intro env p kwargs hc hd ho
  constructor
  · intro msg hmsg
    simp only [GoogleDocsWrite.invoke, hc, Bool.false_eq_true, if_false]
    rw [if_neg hd, if_neg ho]
    simp [hmsg]
  · intro v hv hlist
    simp only [GoogleDocsWrite.invoke, hc, Bool.false_eq_true, if_false]
    rw [if_neg hd, if_neg ho]
    cases v with
    | plist l => simp [PyVal.isList] at hlist
    | pstr s => simp [hv]
    | pint n => simp [hv]
    | pbool b => simp [hv]
    | pnone => simp [hv]
    | pdict d => simp [hv]

/-- C4 witness: the theorem applied to concrete invocations with
`operations = "not json"` (parse failure — in `testEnv` the raised
message is `"Expecting value: not json"`) and `operations = "{}"`
(valid JSON that is not an array). -/
theorem C4_write_operations_validation_witness :
    GoogleDocsWrite.invoke
        (testEnv (fun _ => false) (fun _ => .ok .pnone) (fun _ => .ok .pnone))
        ⟨"{}", 2, 5⟩ [("document_id", "d1"), ("operations", "not json")] =
      ⟨.retStr "Error: Invalid JSON in operations: Expecting value: not json",
       [("_ERROR", .vstr "Invalid JSON in operations: Expecting value: not json"),
        ("success", .vbool false)], []⟩ ∧
    GoogleDocsWrite.invoke
        (testEnv (fun _ => false) (fun _ => .ok .pnone) (fun _ => .ok .pnone))
        ⟨"{}", 2, 5⟩ [("document_id", "d1"), ("operations", "{}")] =
      ⟨.retStr "Error: operations must be a JSON array",
       [("_ERROR", .vstr "operations must be a JSON array"),
        ("success", .vbool false)], []⟩ := by
  constructor
  · exact (C4_write_operations_validation
      (testEnv (fun _ => false) (fun _ => .ok .pnone) (fun _ => .ok .pnone))
      ⟨"{}", 2, 5⟩ [("document_id", "d1"), ("operations", "not json")]
      rfl (by decide) (by decide)).1 "Expecting value: not json" rfl
  · exact (C4_write_operations_validation
      (testEnv (fun _ => false) (fun _ => .ok .pnone) (fun _ => .ok .pnone))
      ⟨"{}", 2, 5⟩ [("document_id", "d1"), ("operations", "{}")]
      rfl (by decide) (by decide)).2 (.pdict []) rfl rfl

/-! ### C5 -/

/-- C5: if the retry loop of either tool exhausts all its attempts
without returning a success and without a captured (non-empty) error
message, the invocation neither returns a success result nor a normal
error result: it hits the fatal `assert False`, setting no outputs. -/
theorem C5_exhaust_without_error_asserts :
    ∀ (env : Env) (p : ToolParam) (d : String) (ops : List PyVal)
      (a pi : Nat) (events : List Event),
      GoogleDocsRead.loop env p d 0 a pi "" events = ⟨.assertFail, [], events⟩ ∧
      GoogleDocsWrite.loop env p d ops 0 a pi "" events = ⟨.assertFail, [], events⟩ := by
  intro env p d ops a pi events
  exact ⟨by simp [GoogleDocsRead.loop], by simp [GoogleDocsWrite.loop]⟩

/-! ### C6 -/

/-- C6: if an attempt's `try` body (client construction or the remote
call) raises and the cancellation flag is observed set at the
re-check inside the exception handler, the invocation returns
immediately with no result (`None`): no `_ERROR` output is recorded, no
sleep occurs, and no further attempt is made — the trace ends with that
attempt. -/
theorem C6_cancel_in_handler :
    ∀ (env : Env) (p : ToolParam) (d : String) (ops : List PyVal)
      (n a pi : Nat) (last_e e : String) (events : List Event),
      env.canceled pi = false →
      env.canceled (pi + 1) = true →
      (GoogleDocsRead.tryBody env p a d = .error e →
        GoogleDocsRead.loop env p d (n + 1) a pi last_e events =
          ⟨.retNone, [], events ++ [.attempt GoogleDocsRead.SCOPES]⟩) ∧
      (GoogleDocsWrite.tryBody env p a d ops = .error e →
        GoogleDocsWrite.loop env p d ops (n + 1) a pi last_e events =
          ⟨.retNone, [], events ++ [.attempt GoogleDocsWrite.SCOPES]⟩) := by
  intro env p d ops n a pi last_e e events hc1 hc2
  constructor
  · intro htry
    simp [GoogleDocsRead.loop, hc1, htry, hc2]
  · intro htry
    simp [GoogleDocsWrite.loop, hc1, htry, hc2]

/-- C6 witness: the theorem applied to a concrete environment that is
canceled exactly at the second poll, with the first attempt of each tool
failing with `"boom"`. -/
theorem C6_cancel_in_handler_witness :
    GoogleDocsRead.loop
        (testEnv (fun i => i == 1) (fun _ => .error "boom") (fun _ => .error "boom"))
        ⟨"{}", 2, 5⟩ "d1" 3 0 0 "" [] =
      ⟨.retNone, [], [.attempt GoogleDocsRead.SCOPES]⟩ ∧
    GoogleDocsWrite.loop
        (testEnv (fun i => i == 1) (fun _ => .error "boom") (fun _ => .error "boom"))
        ⟨"{}", 2, 5⟩ "d1" [] 3 0 0 "" [] =
      ⟨.retNone, [], [.attempt GoogleDocsWrite.SCOPES]⟩ := by
  have h := C6_cancel_in_handler
    (testEnv (fun i => i == 1) (fun _ => .error "boom") (fun _ => .error "boom"))
    ⟨"{}", 2, 5⟩ "d1" [] 2 0 0 "" "boom" [] rfl rfl
  exact ⟨h.1 rfl, h.2 rfl⟩

/-! ### C7 -/

/-- C7: if cancellation is observed before any remote-call attempt —
either at the initial check (poll 0) or at the top of the first loop
iteration (poll 1, reached when input validation passes) — the
invocation performs no remote call and no client construction (empty
event trace), sets no output fields, and returns with no result value
(`None`). -/
theorem C7_cancel_before_any_attempt :
    ∀ (env : Env) (p : ToolParam) (kwargs : List (String × String)),
      (env.canceled 0 = true →
        GoogleDocsRead.invoke env p kwargs = ⟨.retNone, [], []⟩ ∧
        GoogleDocsWrite.invoke env p kwargs = ⟨.retNone, [], []⟩) ∧
      (env.canceled 0 = false → env.canceled 1 = true →
        (pyStrip (strGet kwargs "document_id") ≠ "" →
          GoogleDocsRead.invoke env p kwargs = ⟨.retNone, [], []⟩) ∧
        (pyStrip (strGet kwargs "document_id") ≠ "" →
          pyStrip (strGet kwargs "operations") ≠ "" →
          ∀ ops, env.jsonLoads (pyStrip (strGet kwargs "operations")) = .ok (.plist ops) →
          GoogleDocsWrite.invoke env p kwargs = ⟨.retNone, [], []⟩)) := by
  intro env p kwargs
  constructor
  · intro h0
    exact ⟨by simp [GoogleDocsRead.invoke, h0], by simp [GoogleDocsWrite.invoke, h0]⟩
  · intro h0 h1
    constructor
    · intro hd
      simp only [GoogleDocsRead.invoke, h0, Bool.false_eq_true, if_false]
      rw [if_neg hd]
      simp [GoogleDocsRead.loop, h1]
    · intro hd ho ops hjson
      simp only [GoogleDocsWrite.invoke, h0, Bool.false_eq_true, if_false]
      rw [if_neg hd, if_neg ho]
      simp only [hjson]
      simp [GoogleDocsWrite.loop, h1]

/-- C7 witness: the theorem applied to a concrete environment canceled
from the start (poll 0) and to one canceled exactly at the top of the
first loop iteration (poll 1). -/
theorem C7_cancel_before_any_attempt_witness :
    (GoogleDocsRead.invoke
        (testEnv (fun _ => true) (fun _ => .ok .pnone) (fun _ => .ok .pnone))
        ⟨"{}", 2, 5⟩ [("document_id", "d1")] = ⟨.retNone, [], []⟩) ∧
    (GoogleDocsWrite.invoke
        (testEnv (fun i => i == 1) (fun _ => .ok .pnone) (fun _ => .ok .pnone))
        ⟨"{}", 2, 5⟩ [("document_id", "d1"), ("operations", "[]")] =
      ⟨.retNone, [], []⟩) := by
  constructor
  · exact ((C7_cancel_before_any_attempt
      (testEnv (fun _ => true) (fun _ => .ok .pnone) (fun _ => .ok .pnone))
      ⟨"{}", 2, 5⟩ [("document_id", "d1")]).1 rfl).1
  · exact ((C7_cancel_before_any_attempt
      (testEnv (fun i => i == 1) (fun _ => .ok .pnone) (fun _ => .ok .pnone))
      ⟨"{}", 2, 5⟩ [("document_id", "d1"), ("operations", "[]")]).2 rfl rfl).2
      (by decide) (by decide) [] rfl

/-! ### C8 -/

/-- C8: the read tool's scope constant is exactly the two read-only
scopes and the write tool's is exactly the two read-write scopes; every
remote-call attempt of any invocation of either tool constructs its
fresh client with exactly the tool's scopes (every `.attempt` event in
every reachable trace carries them); and whenever `_get_docs_service`
returns a client, that client was built from the `json.loads` of the
credential blob with exactly the tool's scopes. -/
theorem C8_client_scopes :
    (GoogleDocsRead.SCOPES =
      ["https://www.googleapis.com/auth/documents.readonly",
       "https://www.googleapis.com/auth/drive.readonly"] ∧
     GoogleDocsWrite.SCOPES =
      ["https://www.googleapis.com/auth/documents",
       "https://www.googleapis.com/auth/drive"]) ∧
    (∀ (env : Env) (p : ToolParam) (kwargs : List (String × String)),
      attemptsUse GoogleDocsRead.SCOPES (GoogleDocsRead.invoke env p kwargs).events = true ∧
      attemptsUse GoogleDocsWrite.SCOPES (GoogleDocsWrite.invoke env p kwargs).events = true) ∧
    (∀ (env : Env) (p : ToolParam) (svc : Service),
      (GoogleDocsRead.getDocsService env p = .ok svc →
        svc.scopes = GoogleDocsRead.SCOPES ∧
        env.jsonLoads p.service_account_json = .ok svc.info) ∧
      (GoogleDocsWrite.getDocsService env p = .ok svc →
        svc.scopes = GoogleDocsWrite.SCOPES ∧
        env.jsonLoads p.service_account_json = .ok svc.info)) := by
  refine ⟨⟨rfl, rfl⟩, ?_, ?_⟩
  · intro env p kwargs
    constructor
    · by_cases h0 : env.canceled 0
      · simp [GoogleDocsRead.invoke, h0, attemptsUse]
      · by_cases hd : pyStrip (strGet kwargs "document_id") = ""
        · simp [GoogleDocsRead.invoke, h0, hd, attemptsUse]
        · simp only [GoogleDocsRead.invoke, h0, Bool.false_eq_true, if_false]
          rw [if_neg hd]
          exact GoogleDocsRead.loop_scopes_read env p _ (p.max_retries + 1) 0 1 "" [] rfl
    · by_cases h0 : env.canceled 0
      · simp [GoogleDocsWrite.invoke, h0, attemptsUse]
      · by_cases hd : pyStrip (strGet kwargs "document_id") = ""
        · simp [GoogleDocsWrite.invoke, h0, hd, attemptsUse]
        · by_cases ho : pyStrip (strGet kwargs "operations") = ""
          · simp [GoogleDocsWrite.invoke, h0, hd, ho, attemptsUse]
          · simp only [GoogleDocsWrite.invoke, h0, Bool.false_eq_true, if_false]
            rw [if_neg hd, if_neg ho]
            cases hjson : env.jsonLoads (pyStrip (strGet kwargs "operations")) with
            | error e => simp [attemptsUse]
            | ok v =>
              cases v with
              | plist l =>
                exact GoogleDocsWrite.loop_scopes_write env p _ l (p.max_retries + 1) 0 1 "" [] rfl
              | pstr s => simp [attemptsUse]
              | pint n => simp [attemptsUse]
              | pbool b => simp [attemptsUse]
              | pnone => simp [attemptsUse]
              | pdict d => simp [attemptsUse]
  · intro env p svc
    constructor
    · intro h
      cases hj : env.jsonLoads p.service_account_json with
      | error e => simp [GoogleDocsRead.getDocsService, hj] at h
      | ok info =>
        cases hs : env.serviceFailure info GoogleDocsRead.SCOPES with
        | some e => simp [GoogleDocsRead.getDocsService, hj, hs] at h
        | none =>
          simp only [GoogleDocsRead.getDocsService, hj, hs, Except.ok.injEq] at h
          rw [← h]
          exact ⟨rfl, rfl⟩
    · intro h
      cases hj : env.jsonLoads p.service_account_json with
      | error e => simp [GoogleDocsWrite.getDocsService, hj] at h
      | ok info =>
        cases hs : env.serviceFailure info GoogleDocsWrite.SCOPES with
        | some e => simp [GoogleDocsWrite.getDocsService, hj, hs] at h
        | none =>
          simp only [GoogleDocsWrite.getDocsService, hj, hs, Except.ok.injEq] at h
          rw [← h]
          exact ⟨rfl, rfl⟩

/-- C8 witness: the client-construction part applied to a concrete
environment in which `_get_docs_service` succeeds for each tool. -/
theorem C8_client_scopes_witness :
    ((⟨GoogleDocsRead.SCOPES, .pdict []⟩ : Service).scopes = GoogleDocsRead.SCOPES ∧
      (testEnv (fun _ => false) (fun _ => .ok .pnone) (fun _ => .ok .pnone)).jsonLoads
        (ToolParam.mk "{}" 2 5).service_account_json =
        .ok (⟨GoogleDocsRead.SCOPES, .pdict []⟩ : Service).info) ∧
    ((⟨GoogleDocsWrite.SCOPES, .pdict []⟩ : Service).scopes = GoogleDocsWrite.SCOPES ∧
      (testEnv (fun _ => false) (fun _ => .ok .pnone) (fun _ => .ok .pnone)).jsonLoads
        (ToolParam.mk "{}" 2 5).service_account_json =
        .ok (⟨GoogleDocsWrite.SCOPES, .pdict []⟩ : Service).info) := by
  constructor
  · exact (C8_client_scopes.2.2
      (testEnv (fun _ => false) (fun _ => .ok .pnone) (fun _ => .ok .pnone))
      ⟨"{}", 2, 5⟩ ⟨GoogleDocsRead.SCOPES, .pdict []⟩).1 rfl
  · exact (C8_client_scopes.2.2
      (testEnv (fun _ => false) (fun _ => .ok .pnone) (fun _ => .ok .pnone))
      ⟨"{}", 2, 5⟩ ⟨GoogleDocsWrite.SCOPES, .pdict []⟩).2 rfl

/-! ### C9 -/

/-- Does the write tool's input validation reject these inputs: blank
`document_id`, blank `operations`, `operations` that fails to parse as
JSON, or that parses to a non-array value? -/
def writeValidationFails (env : Env) (kwargs : List (String × String)) : Bool :=
  (pyStrip (strGet kwargs "document_id") == "") ||
  (pyStrip (strGet kwargs "operations") == "") ||
  (match env.jsonLoads (pyStrip (strGet kwargs "operations")) with
   | .error _ => true
   | .ok v => !v.isList)

/-- C9: validation failures are deterministic and independent of the
retry configuration and of the remote and timing oracles: two
non-canceled invocations of the same tool on the same invalid inputs,
under the same (deterministic) `json` library but arbitrary, possibly
different, parameters (`max_retries`, `delay_after_error`, credential
blob) and remote behaviours, produce identical results — same returned
string, same `_ERROR` and `success` outputs, same (empty) trace. -/
theorem C9_validation_deterministic :
    ∀ (env1 env2 : Env) (p1 p2 : ToolParam) (kwargs : List (String × String)),
      env1.canceled 0 = false → env2.canceled 0 = false →
      env1.jsonLoads = env2.jsonLoads →
      (pyStrip (strGet kwargs "document_id") = "" →
        GoogleDocsRead.invoke env1 p1 kwargs = GoogleDocsRead.invoke env2 p2 kwargs) ∧
      (writeValidationFails env1 kwargs = true →
        GoogleDocsWrite.invoke env1 p1 kwargs = GoogleDocsWrite.invoke env2 p2 kwargs) := by
  intro env1 env2 p1 p2 kwargs h1 h2 hj
  constructor
  · intro hd
    simp [GoogleDocsRead.invoke, h1, h2, hd]
  · intro hv
    by_cases hd : pyStrip (strGet kwargs "document_id") = ""
    · simp [GoogleDocsWrite.invoke, h1, h2, hd]
    · by_cases ho : pyStrip (strGet kwargs "operations") = ""
      · simp only [GoogleDocsWrite.invoke, h1, h2, Bool.false_eq_true, if_false]
        rw [if_neg hd, if_neg hd, if_pos ho, if_pos ho]
      · cases hload : env1.jsonLoads (pyStrip (strGet kwargs "operations")) with
        | error e =>
          simp only [GoogleDocsWrite.invoke, h1, h2, Bool.false_eq_true, if_false]
          rw [if_neg hd, if_neg hd, if_neg ho, if_neg ho, ← hj, hload]
        | ok v =>
          cases v with
          | plist l =>
            exfalso
            simp [writeValidationFails, hd, ho, hload, PyVal.isList] at hv
          | pstr s =>
            simp only [GoogleDocsWrite.invoke, h1, h2, Bool.false_eq_true, if_false]
            rw [if_neg hd, if_neg hd, if_neg ho, if_neg ho, ← hj, hload]
          | pint n =>
            simp only [GoogleDocsWrite.invoke, h1, h2, Bool.false_eq_true, if_false]
            rw [if_neg hd, if_neg hd, if_neg ho, if_neg ho, ← hj, hload]
          | pbool b =>
            simp only [GoogleDocsWrite.invoke, h1, h2, Bool.false_eq_true, if_false]
            rw [if_neg hd, if_neg hd, if_neg ho, if_neg ho, ← hj, hload]
          | pnone =>
            simp only [GoogleDocsWrite.invoke, h1, h2, Bool.false_eq_true, if_false]
            rw [if_neg hd, if_neg hd, if_neg ho, if_neg ho, ← hj, hload]
          | pdict d =>
            simp only [GoogleDocsWrite.invoke, h1, h2, Bool.false_eq_true, if_false]
            rw [if_neg hd, if_neg hd, if_neg ho, if_neg ho, ← hj, hload]

/-- C9 witness: the theorem applied to two runs with the same invalid
inputs but different retry configurations (`max_retries` 0 vs 5, delays
1 vs 9) and different remote behaviours. -/
theorem C9_validation_deterministic_witness :
    (GoogleDocsRead.invoke
        (testEnv (fun _ => false) (fun _ => .ok .pnone) (fun _ => .ok .pnone))
        ⟨"{}", 0, 1⟩ [("document_id", " ")] =
      GoogleDocsRead.invoke
        (testEnv (fun _ => false) (fun _ => .error "x") (fun _ => .error "x"))
        ⟨"sa2", 5, 9⟩ [("document_id", " ")]) ∧
    (GoogleDocsWrite.invoke
        (testEnv (fun _ => false) (fun _ => .ok .pnone) (fun _ => .ok .pnone))
        ⟨"{}", 0, 1⟩ [("document_id", "d1"), ("operations", "not json")] =
      GoogleDocsWrite.invoke
        (testEnv (fun _ => false) (fun _ => .error "x") (fun _ => .error "x"))
        ⟨"sa2", 5, 9⟩ [("document_id", "d1"), ("operations", "not json")]) := by
  constructor
  · exact (C9_validation_deterministic
      (testEnv (fun _ => false) (fun _ => .ok .pnone) (fun _ => .ok .pnone))
      (testEnv (fun _ => false) (fun _ => .error "x") (fun _ => .error "x"))
      ⟨"{}", 0, 1⟩ ⟨"sa2", 5, 9⟩ [("document_id", " ")] rfl rfl rfl).1 (by decide)
  · exact (C9_validation_deterministic
      (testEnv (fun _ => false) (fun _ => .ok .pnone) (fun _ => .ok .pnone))
      (testEnv (fun _ => false) (fun _ => .error "x") (fun _ => .error "x"))
      ⟨"{}", 0, 1⟩ ⟨"sa2", 5, 9⟩ [("document_id", "d1"), ("operations", "not json")]
      rfl rfl rfl).2 (by decide)

/-! ### C10 -/

/-- C10: the "no captured error" branch is reachable, not merely
defensive: if every attempt's exception stringifies to the empty
string, a non-canceled, validation-passing invocation of either tool
performs all `max_retries + 1` remote-call attempts (which genuinely
fail), ends the loop with `last_e = ""`, skips the error-reporting
branch, and hits the fatal assertion — for every retry configuration. -/
theorem C10_empty_error_reaches_assert :
    ∀ (m dly : Nat),
      GoogleDocsRead.invoke
          (testEnv (fun _ => false) (fun _ => .error "") (fun _ => .error ""))
          ⟨"{}", m, dly⟩ [("document_id", "d1")] =
        ⟨.assertFail, [], failTrace GoogleDocsRead.SCOPES dly (m + 1)⟩ ∧
      countAttempts (GoogleDocsRead.invoke
          (testEnv (fun _ => false) (fun _ => .error "") (fun _ => .error ""))
          ⟨"{}", m, dly⟩ [("document_id", "d1")]).events = m + 1 ∧
      GoogleDocsWrite.invoke
          (testEnv (fun _ => false) (fun _ => .error "") (fun _ => .error ""))
          ⟨"{}", m, dly⟩ [("document_id", "d1"), ("operations", "[]")] =
        ⟨.assertFail, [], failTrace GoogleDocsWrite.SCOPES dly (m + 1)⟩ ∧
      countAttempts (GoogleDocsWrite.invoke
          (testEnv (fun _ => false) (fun _ => .error "") (fun _ => .error ""))
          ⟨"{}", m, dly⟩ [("document_id", "d1"), ("operations", "[]")]).events = m + 1 := by
  intro m dly
  have hcR : ∀ i, (testEnv (fun _ => false) (fun _ => .error "")
      (fun _ => .error "")).canceled i = false := fun _ => rfl
  have hread : GoogleDocsRead.invoke
      (testEnv (fun _ => false) (fun _ => .error "") (fun _ => .error ""))
      ⟨"{}", m, dly⟩ [("document_id", "d1")] =
      ⟨.assertFail, [], failTrace GoogleDocsRead.SCOPES dly (m + 1)⟩ := by
    have hl := GoogleDocsRead.loop_exhaust_read
      (testEnv (fun _ => false) (fun _ => .error "") (fun _ => .error ""))
      ⟨"{}", m, dly⟩ "d1" hcR (fun _ => "") (m + 1) 0 1 "" []
      (fun i _ => rfl)
    simp only [GoogleDocsRead.invoke]
    rw [if_neg (by decide), if_neg (by decide)]
    rw [show pyStrip (strGet [("document_id", "d1")] "document_id") = "d1" from rfl]
    rw [hl]
    simp [GoogleDocsRead.loop]
  have hwrite : GoogleDocsWrite.invoke
      (testEnv (fun _ => false) (fun _ => .error "") (fun _ => .error ""))
      ⟨"{}", m, dly⟩ [("document_id", "d1"), ("operations", "[]")] =
      ⟨.assertFail, [], failTrace GoogleDocsWrite.SCOPES dly (m + 1)⟩ := by
    have hl := GoogleDocsWrite.loop_exhaust_write
      (testEnv (fun _ => false) (fun _ => .error "") (fun _ => .error ""))
      ⟨"{}", m, dly⟩ "d1" [] hcR (fun _ => "") (m + 1) 0 1 "" []
      (fun i _ => rfl)
    simp only [GoogleDocsWrite.invoke]
    rw [if_neg (by decide), if_neg (by decide), if_neg (by decide)]
    have hload : (testEnv (fun _ => false) (fun _ => .error "")
        (fun _ => .error "")).jsonLoads (pyStrip (strGet
          [("document_id", "d1"), ("operations", "[]")] "operations")) =
        .ok (.plist []) := rfl
    simp only [hload]
    rw [show pyStrip (strGet [("document_id", "d1"), ("operations", "[]")]
      "document_id") = "d1" from rfl]
    rw [hl]
    simp [GoogleDocsWrite.loop]
  refine ⟨hread, ?_, hwrite, ?_⟩
  · have hev : (GoogleDocsRead.invoke
        (testEnv (fun _ => false) (fun _ => .error "") (fun _ => .error ""))
        ⟨"{}", m, dly⟩ [("document_id", "d1")]).events =
        failTrace GoogleDocsRead.SCOPES dly (m + 1) := by rw [hread]
    rw [hev, countAttempts_failTrace]
  · have hev : (GoogleDocsWrite.invoke
        (testEnv (fun _ => false) (fun _ => .error "") (fun _ => .error ""))
        ⟨"{}", m, dly⟩ [("document_id", "d1"), ("operations", "[]")]).events =
        failTrace GoogleDocsWrite.SCOPES dly (m + 1) := by rw [hwrite]
    rw [hev, countAttempts_failTrace]
